import Mathlib

/-!
Shallow embedding of the relay core of the Xiaozhi MCP client
(`src/mcp_pipe.py`): the `MCPPipe` class (connection management with
exponential backoff, the initialize/initialized handshake, the three
relay pumps) and the startup validation in `main`.  Machine behaviour
that the claims depend on (Python `try/finally` with `continue`,
`asyncio.gather` completion, exception swallowing) is embedded exactly
as the source has it; each definition cites the lines it translates.
-/

namespace McpPipe

/-! ### Python string helpers -/

/-- The ASCII characters removed by Python's `str.strip()` with no
argument (space, tab, newline, vertical tab, form feed, carriage
return).  `str.strip` also removes some further Unicode space code
points, which never occur in the relay's JSON traffic. -/
def pyWhitespace (c : Char) : Bool :=
  c = ' ' || c = '\t' || c = '\n' || c = '\x0b' || c = '\x0c' || c = '\r'

/-- Python `s.strip()`: drop leading and trailing whitespace. -/
def pyStrip (s : String) : String :=
  ⟨((s.data.dropWhile pyWhitespace).reverse.dropWhile pyWhitespace).reverse⟩

/-! ### Reconnect-delay arithmetic (mcp_pipe.py lines 25-26, 201, 234) -/

/-- `self.reconnect_delay = 1` in `__init__` (line 25). -/
def initialReconnectDelay : Nat := 1

/-- `self.reconnect_delay = min(self.reconnect_delay * 2, self.max_reconnect_delay)`
with `max_reconnect_delay = 60` (lines 26, 201, 234). -/
def bumpDelay (d : Nat) : Nat := min (d * 2) 60

/-! ### `connect_websocket` (lines 43-63) -/

/-- The mutable fields of `MCPPipe` that `connect_websocket` touches. -/
structure ConnState where
  ws : Bool
  reconnect_delay : Nat
  initialized : Bool
deriving DecidableEq

/-- `connect_websocket` (lines 43-63): on success it stores the socket,
resets `reconnect_delay` to 1, clears `initialized` and returns `True`
(lines 49-57); on failure it logs and returns `False`, leaving every
field unchanged (lines 58-63).  `success` stands for whether
`websockets.connect` raised. -/
def connectWebsocket (s : ConnState) (success : Bool) : ConnState × Bool :=
  if success then ({ ws := true, reconnect_delay := 1, initialized := false }, true)
  else (s, false)

/-! ### The handshake: `initialize_mcp` (lines 65-106) -/

/-- The capabilities object of the initialize request (lines 74-77):
`{"roots": {"listChanged": true}, "sampling": {}}`. -/
structure Capabilities where
  rootsListChanged : Bool
  sampling : Bool
deriving DecidableEq

/-- `clientInfo` (lines 78-81). -/
structure ClientInfo where
  name : String
  version : String
deriving DecidableEq

/-- `params` of the initialize request (lines 72-82). -/
structure InitParams where
  protocolVersion : String
  capabilities : Capabilities
  clientInfo : ClientInfo
deriving DecidableEq

/-- A JSON-RPC envelope as the handshake builds it: version tag,
optional numeric id, method, and (for the initialize request) params. -/
structure JsonRpcMsg where
  jsonrpc : String
  id : Option Nat
  method : String
  params : Option InitParams
deriving DecidableEq

/-- `init_request` (lines 68-83). -/
def initRequest : JsonRpcMsg :=
  { jsonrpc := "2.0"
    id := some 1
    method := "initialize"
    params := some
      { protocolVersion := "2024-11-05"
        capabilities := { rootsListChanged := true, sampling := true }
        clientInfo := { name := "xiaozhi-client", version := "1.0.0" } } }

/-- `initialized_notification` (lines 94-97): no id, no params. -/
def initializedNotification : JsonRpcMsg :=
  { jsonrpc := "2.0", id := none, method := "notifications/initialized", params := none }

/-- One observable step of `initialize_mcp`: a `stdin.write` + `drain`
of one envelope (`ok := false` when the write or drain raised), or an
`asyncio.sleep`. -/
inductive HsEvent
  | write (m : JsonRpcMsg) (ok : Bool)
  | sleep (secs : Nat)
deriving DecidableEq

/-- Which of the two handshake writes succeed (a write that raises is
modelled by `false`; the raise is caught at lines 105-106). -/
structure HsOutcome where
  write1Ok : Bool
  write2Ok : Bool
deriving DecidableEq

/-- `initialize_mcp` (lines 65-106).  When `self.process and
self.process.stdin` holds (line 86) it writes the initialize request
and drains (lines 87-89), sleeps 1 second (line 92), writes the
initialized notification and drains (lines 98-100), and only then sets
`self.initialized = True` (line 103).  Every exception is caught and
only logged (lines 105-106), so a failed first write skips the rest and
a failed second write skips the flag, but the coroutine itself always
returns normally.  Result: the final `initialized` flag and the event
trace. -/
def initMcp (hasStdin : Bool) (o : HsOutcome) : Bool × List HsEvent :=
  if hasStdin then
    if o.write1Ok then
      if o.write2Ok then
        (true, [HsEvent.write initRequest true, HsEvent.sleep 1,
                HsEvent.write initializedNotification true])
      else
        (false, [HsEvent.write initRequest true, HsEvent.sleep 1,
                 HsEvent.write initializedNotification false])
    else
      (false, [HsEvent.write initRequest false])
  else (false, [])

/-- What one session iteration of `run` does right after the handshake
(lines 204-212): `await self.initialize_mcp()` — which never raises,
because `initialize_mcp` catches every exception internally — followed
unconditionally by `asyncio.create_task` for the three pumps (lines
206-210).  So the pump tasks are started whatever the handshake writes
did. -/
structure SessionView where
  initialized : Bool
  pumpsStarted : Bool
deriving DecidableEq

/-- The session state reached at line 212 as a function of the
handshake conditions: `initialized` comes from `initialize_mcp`, and
the pump tasks have been created on every control path, since no
statement between line 204 and line 210 can raise. -/
def sessionHandshakePhase (hasStdin : Bool) (o : HsOutcome) : SessionView :=
  { initialized := (initMcp hasStdin o).1, pumpsStarted := true }

/-! ### The process→remote pump: `read_from_process` (lines 108-138) -/

/-- One iteration's input to `read_from_process`: what
`self.process.stdout.readline()` (line 115) and the subsequent handling
yield.
* `line raw sendOk` — `readline` returned a non-empty chunk whose
  decode succeeds; `sendOk` is whether `self.ws.send` (line 133), when
  reached, returns without raising;
* `badLine` — a chunk whose `decode()` (line 120) raises;
* `streamGone` — `self.process`/`stdout` is absent (lines 111-113):
  sleep 0.1s and continue;
* `eof` — `readline` returned `b""` (lines 116-117): break;
* `readErr` — `readline` itself raised (caught at lines 137-138). -/
inductive ReadItem
  | line (raw : String) (sendOk : Bool)
  | badLine
  | streamGone
  | eof
  | readErr
deriving DecidableEq

/-- `read_from_process` (lines 108-138) as the list of payloads it
hands to `self.ws.send`, in order, driven by a trace of readline
outcomes.  `ws` models `self.ws` being set (line 132); `peekOk m`
models whether `json.loads(m)` at line 125 succeeds — that parse sits
in its own `try/except: pass` (lines 124-130) and is used only for
logging, so it steers nothing.  The body: decode and `strip()` the
chunk (line 120); an empty stripped message is skipped (line 121); a
send that raises is caught by the inner handler (lines 134-135) and the
loop continues; `eof` breaks the loop and `readErr` is caught by the
outer handler, both finishing the task. -/
def readFromProcess (ws : Bool) (peekOk : String → Bool) : List ReadItem → List String
  | [] => []
  | ReadItem.streamGone :: rest => readFromProcess ws peekOk rest
  | ReadItem.eof :: _ => []
  | ReadItem.readErr :: _ => []
  | ReadItem.badLine :: rest => readFromProcess ws peekOk rest
  | ReadItem.line raw sendOk :: rest =>
      let message := pyStrip raw
      if message = "" then readFromProcess ws peekOk rest
      else
        let _ := peekOk message
        if ws then
          if sendOk then message :: readFromProcess ws peekOk rest
          else readFromProcess ws peekOk rest
        else readFromProcess ws peekOk rest

/-- The readline outcomes that finish the `read_from_process` task:
an empty read (lines 116-117) or an error from the read itself
(lines 137-138). -/
def stopsProcPump : ReadItem → Bool
  | ReadItem.eof => true
  | ReadItem.readErr => true
  | _ => false

/-- Closed form of the pump's output: of the trace prefix before the
first `eof`/`readErr`, the decoded-and-stripped non-empty lines whose
send succeeded, in production order. -/
def forwardedPayloads (items : List ReadItem) : List String :=
  (items.takeWhile (fun i => !stopsProcPump i)).filterMap fun i =>
    match i with
    | ReadItem.line raw true => if pyStrip raw = "" then none else some (pyStrip raw)
    | _ => none

/-! ### The remote→process pump: `read_from_websocket` (lines 140-170) -/

/-- One iteration's input to `read_from_websocket`:
* `msg s hasStdin writeOk` — `self.ws.recv()` returned text `s`;
  `hasStdin` is the guard `self.process and self.process.stdin`
  (line 158), `writeOk` whether the `stdin.write`/`drain`
  (lines 159-160) runs without raising;
* `noWs` — `self.ws` absent (lines 143-145): sleep and continue;
* `closed` — `recv` raised `ConnectionClosed` (lines 162-164): break;
* `recvErr` — any other exception in the iteration body
  (lines 165-167): log and break. -/
inductive WsItem
  | msg (s : String) (hasStdin : Bool) (writeOk : Bool)
  | noWs
  | closed
  | recvErr
deriving DecidableEq

/-- `read_from_websocket` (lines 140-170) as the list of strings
written to the process's standard input, in order.  For each received
message the pump peeks at it with `json.loads` purely for tool-call
logging (lines 151-156, an inner `try/except: pass` that steers
nothing), then writes `f"{message}\n"` — the raw text plus exactly one
newline — and drains (lines 158-160).  A write that raises is caught by
the iteration's own handler at lines 165-167, which breaks the loop, so
nothing further is written. -/
def readFromWebsocket : List WsItem → List String
  | [] => []
  | WsItem.noWs :: rest => readFromWebsocket rest
  | WsItem.closed :: _ => []
  | WsItem.recvErr :: _ => []
  | WsItem.msg s hasStdin writeOk :: rest =>
      if hasStdin then
        if writeOk then (s ++ "\n") :: readFromWebsocket rest
        else []
      else readFromWebsocket rest

/-! ### Relay termination: the three tasks and `asyncio.gather` (lines 206-212) -/

/-- Completion state of the three pump tasks created at lines 206-210:
`read_from_process`, `read_from_websocket`, `read_process_stderr`. -/
structure RelayTasks where
  procDone : Bool
  wsDone : Bool
  errDone : Bool
deriving DecidableEq

/-- A pump finishing: stdout end-of-stream finishes the process pump
(lines 116-117), a closed connection finishes the websocket pump
(lines 162-164), stderr end-of-stream finishes the diagnostics pump
(lines 180-181). -/
inductive PumpEvent
  | stdoutEof
  | wsClosed
  | stderrEof
deriving DecidableEq

/-- Effect of one pump finishing on the task set.  Only that task's own
flag changes: `run` holds no reference it could use to cancel the
siblings mid-gather and line 212 merely awaits, so a pump ending never
cancels the other two. -/
def relayStep (t : RelayTasks) : PumpEvent → RelayTasks
  | PumpEvent.stdoutEof => { t with procDone := true }
  | PumpEvent.wsClosed => { t with wsDone := true }
  | PumpEvent.stderrEof => { t with errDone := true }

/-- `await asyncio.gather(*tasks, return_exceptions=True)` (line 212):
the gather — and with it the Relaying phase of the iteration — is over
exactly when all three gathered tasks have finished. -/
def gatherDone (t : RelayTasks) : Bool := t.procDone && t.wsDone && t.errDone

/-- Follows the spec's words, for comparison with `gatherDone`:
"the Relay's overall unit of work ends as soon as any one of the three
pumps ends". -/
def specRelayTermination (t : RelayTasks) : Bool := t.procDone || t.wsDone || t.errDone

/-! ### The session loop: `run` (lines 190-234) -/

/-- Observable steps of `run`, in program order.  `connectAttempt d`
records the value of `self.reconnect_delay` at the moment
`connect_websocket` is called. -/
inductive Event
  | spawn
  | connectAttempt (d : Nat)
  | sleep (secs : Nat)
  | handshake
  | relay
  | closeWs
  | terminate
deriving DecidableEq

/-- The `while self.running` loop of `run` (lines 193-234), traced over
a list of `connect_websocket` outcomes, one per iteration; `running`
stays true throughout (nothing in `run` clears it).  State carried
across iterations: `d` is `self.reconnect_delay`, `w` is whether
`self.ws` has ever been set (the `finally` block closes it only `if
self.ws`, line 217).

Each iteration: `start_mcp_process` (line 195), then
`connect_websocket` (line 197).
* On failure (lines 198-202): sleep `reconnect_delay`, double it
  (capped), `continue` — and **the `continue` statement runs the
  `finally` block** (lines 216-234): close the socket if ever set,
  terminate the process, and since `running` is still true sleep the
  (already doubled) delay and double it again.
* On success: `connect_websocket` has reset the delay to 1; then the
  handshake (line 204), the relay (lines 206-212), and the `finally`
  block: close the socket, terminate the process, sleep 1 and double
  the delay to 2. -/
def runTrace : Nat → Bool → List Bool → List Event
  | _, _, [] => []
  | d, w, false :: rest =>
      [Event.spawn, Event.connectAttempt d, Event.sleep d]
        ++ (if w then [Event.closeWs] else [])
        ++ [Event.terminate, Event.sleep (bumpDelay d)]
        ++ runTrace (bumpDelay (bumpDelay d)) w rest
  | d, _, true :: rest =>
      [Event.spawn, Event.connectAttempt d, Event.handshake, Event.relay,
       Event.closeWs, Event.terminate, Event.sleep 1]
        ++ runTrace (bumpDelay 1) true rest

/-- The seconds arguments of the `asyncio.sleep` calls of a trace, in
order. -/
def sleepsOf (es : List Event) : List Nat :=
  es.filterMap fun e =>
    match e with
    | Event.sleep secs => some secs
    | _ => none

/-- Is this event a process spawn (`start_mcp_process`)? -/
def isSpawn : Event → Bool
  | Event.spawn => true
  | _ => false

/-- Is this event a call of `connect_websocket`? -/
def isAttempt : Event → Bool
  | Event.connectAttempt _ => true
  | _ => false

/-- Is this event a `process.terminate()` from the `finally` block? -/
def isTerminate : Event → Bool
  | Event.terminate => true
  | _ => false

/-! ### Startup validation: `main` (lines 262-307) -/

/-- Where `main` goes after validating its environment. -/
inductive MainResult
  | exits (code : Nat)
  | runsPipe (token : String) (script : String)
deriving DecidableEq

/-- The startup checks of `main` (lines 262-297): read
`XIAOZHI_TOKEN`; if it is unset or empty (`if not token:`, line 265)
log and `sys.exit(1)` (line 276); otherwise strip it (line 278); if the
stripped token has fewer than 10 characters, log and `sys.exit(1)`
(lines 280-286); otherwise read `MCP_SCRIPT` with default
`"reminder_server.py"` (line 288) and construct and run the pipe
(lines 297-307).  Both exits happen before any `MCPPipe` exists, hence
before any connection attempt. -/
def mainStartup (envToken : Option String) (envScript : Option String) : MainResult :=
  match envToken with
  | none => MainResult.exits 1
  | some t =>
      if t = "" then MainResult.exits 1
      else
        let t := pyStrip t
        if t.length < 10 then MainResult.exits 1
        else MainResult.runsPipe t (envScript.getD "reminder_server.py")

/-! ### Helper lemmas -/

/-- A failed send drops that line and the pump carries on with the rest
of the trace (`read_from_process` lines 133-135). -/
theorem readFromProcess_sendFail (ws : Bool) (peekOk : String → Bool)
    (s : String) (rest : List ReadItem) :
    readFromProcess ws peekOk (ReadItem.line s false :: rest) =
      readFromProcess ws peekOk rest := by
  simp only [readFromProcess]
  split
  · rfl
  · split <;> rfl

/-! ### Claim theorems -/

/-- C6: every message received from the remote endpoint during relaying
is written to the process's standard input as the received text plus
exactly one trailing newline, in receipt order
(`read_from_websocket`, lines 148-160). -/
theorem ws_messages_written_with_newline (msgs : List String) :
    readFromWebsocket (msgs.map fun s => WsItem.msg s true true) =
      msgs.map (fun s => s ++ "\n") := by
  induction msgs with
  | nil => rfl
  | cons s rest ih => simp [readFromWebsocket, ih]

/-- C9: a missing token, and a token whose stripped form has fewer than
10 characters, make `main` exit with status 1 before any connection
attempt (the exit happens before an `MCPPipe` is even constructed);
the 10-character token "abcdef0123" passes the check while the
5-character "short" exits (lines 262-297). -/
theorem token_validation :
    (∀ script, mainStartup none script = MainResult.exits 1) ∧
    (∀ t script, (pyStrip t).length < 10 →
      mainStartup (some t) script = MainResult.exits 1) ∧
    mainStartup (some "abcdef0123") none =
      MainResult.runsPipe "abcdef0123" "reminder_server.py" ∧
    mainStartup (some "short") none = MainResult.exits 1 := by
  refine ⟨fun script => rfl, fun t script h => ?_, by decide, by decide⟩
  by_cases ht : t = ""
  · simp [mainStartup, ht]
  · simp [mainStartup, ht, h]

/-- Witness for C9: the 4-character token "tiny" exits with status 1. -/
theorem token_validation_witness :
    mainStartup (some "tiny") none = MainResult.exits 1 :=
  token_validation.2.1 "tiny" none (by decide)

/-- C10: in the process→remote pump, any number of lines whose send
raises are logged, dropped and skipped — the pump continues with the
rest of its input exactly as if they were not there; a decode failure
and a missing stream likewise only skip one iteration; by contrast an
empty read (end-of-stream) or an error from the read itself ends the
pump at once, and a successfully sent line also leaves the pump running
(`read_from_process`, lines 108-138). -/
theorem proc_pump_survives_send_failure (ws : Bool) (peekOk : String → Bool)
    (fails : List String) (raw : String) (rest : List ReadItem) :
    readFromProcess ws peekOk ((fails.map fun s => ReadItem.line s false) ++ rest) =
      readFromProcess ws peekOk rest ∧
    readFromProcess ws peekOk (ReadItem.eof :: rest) = [] ∧
    readFromProcess ws peekOk (ReadItem.readErr :: rest) = [] ∧
    readFromProcess ws peekOk (ReadItem.badLine :: rest) =
      readFromProcess ws peekOk rest ∧
    readFromProcess ws peekOk (ReadItem.streamGone :: rest) =
      readFromProcess ws peekOk rest ∧
    readFromProcess true peekOk (ReadItem.line raw true :: rest) =
      (if pyStrip raw = "" then [] else [pyStrip raw]) ++
        readFromProcess true peekOk rest := by
  refine ⟨?_, rfl, rfl, rfl, rfl, ?_⟩
  · induction fails with
    | nil => rfl
    | cons s fs ih => rw [List.map_cons, List.cons_append, readFromProcess_sendFail, ih]
  · simp only [readFromProcess]
    split
    · simp [*]
    · simp [*]

/-- C8: a successful `connect_websocket` leaves `initialized` false
(line 56), and `initialize_mcp` ends with `initialized = true` exactly
when its event trace is the complete two-message sequence — initialize
request written and drained, 1-second sleep, initialized notification
written and drained (lines 86-103). -/
theorem initialized_flag_lifecycle (s : ConnState) (hasStdin : Bool) (o : HsOutcome) :
    (connectWebsocket s true).1.initialized = false ∧
    ((initMcp hasStdin o).1 = true ↔
      (initMcp hasStdin o).2 =
        [HsEvent.write initRequest true, HsEvent.sleep 1,
         HsEvent.write initializedNotification true]) := by
  refine ⟨rfl, ?_⟩
  rcases o with ⟨w1, w2⟩
  cases hasStdin <;> cases w1 <;> cases w2 <;> simp [initMcp]

/-- C7: the initialize request carries method "initialize", numeric id
1, protocol version "2024-11-05", capabilities advertising
roots.listChanged and sampling, and the client identity; the
notification carries method "notifications/initialized" and no id; and
in every possible run of `initialize_mcp` the notification write can
only occur after the initialize-request write with the 1-second sleep
between the two (lines 65-106). -/
theorem handshake_message_order (hasStdin : Bool) (o : HsOutcome) :
    initRequest.method = "initialize" ∧
    initRequest.id = some 1 ∧
    initRequest.jsonrpc = "2.0" ∧
    initRequest.params = some
      { protocolVersion := "2024-11-05"
        capabilities := { rootsListChanged := true, sampling := true }
        clientInfo := { name := "xiaozhi-client", version := "1.0.0" } } ∧
    initializedNotification.method = "notifications/initialized" ∧
    initializedNotification.id = none ∧
    ((initMcp hasStdin o).2 = [] ∨
     (initMcp hasStdin o).2 = [HsEvent.write initRequest false] ∨
     (initMcp hasStdin o).2 =
       [HsEvent.write initRequest true, HsEvent.sleep 1,
        HsEvent.write initializedNotification o.write2Ok]) := by
  refine ⟨rfl, rfl, rfl, rfl, rfl, rfl, ?_⟩
  rcases o with ⟨w1, w2⟩
  cases hasStdin <;> cases w1 <;> cases w2 <;> simp [initMcp]

/-- C4 counterexample: when the first handshake write raises, the
handshake trace is just that failed write and `initialized` stays
false — yet the iteration still starts the pump tasks, because
`initialize_mcp` catches the exception (lines 105-106) and `run`
creates the tasks unconditionally right after (lines 206-210).  So the
session does enter Relaying on that iteration, contrary to the claim. -/
theorem handshake_write_failure_still_relays :
    (initMcp true ⟨false, true⟩).2 = [HsEvent.write initRequest false] ∧
    (initMcp true ⟨false, true⟩).1 = false ∧
    (sessionHandshakePhase true ⟨false, true⟩).pumpsStarted = true :=
  ⟨rfl, rfl, rfl⟩

/-- C4 amended: a write failure during the handshake is caught and
logged inside `initialize_mcp` and is not fatal to the iteration — the
three pumps are started and the session enters Relaying whatever the
handshake writes did; the only trace a failure leaves is that the
`initialized` flag stays false (it is true exactly when the stream
existed and both writes succeeded). -/
theorem handshake_write_failure_not_fatal (hasStdin : Bool) (o : HsOutcome) :
    (sessionHandshakePhase hasStdin o).pumpsStarted = true ∧
    ((sessionHandshakePhase hasStdin o).initialized = true ↔
      hasStdin = true ∧ o.write1Ok = true ∧ o.write2Ok = true) := by
  refine ⟨rfl, ?_⟩
  rcases o with ⟨w1, w2⟩
  cases hasStdin <;> cases w1 <;> cases w2 <;> simp [sessionHandshakePhase, initMcp]

/-- C5 counterexample: the process produces the line "  hello \n"; the
payload handed to `ws.send` is "hello" — the line stripped of its
leading and trailing whitespace (line 120: `line.decode().strip()`),
not the produced line unmodified.  The peek function that always fails
(`json.loads` raising on every line) is used, so this also shows a
non-JSON line being forwarded. -/
theorem stdout_line_not_forwarded_verbatim :
    readFromProcess true (fun _ => false) [ReadItem.line "  hello \n" true] =
      ["hello"] ∧
    ("hello" : String) ≠ "  hello \n" := by
  exact ⟨rfl, by decide⟩

/-- C5 amended: for every trace of stdout reads, the payloads sent to
the remote are, in production order, the decoded lines **stripped of
leading and trailing whitespace** (rather than unmodified), with
whitespace-only lines dropped, taken from the trace prefix before the
first end-of-stream or read error, keeping only lines whose send
succeeded; and the forwarding is completely independent of the JSON
peek — a line that fails to parse as JSON is forwarded exactly like one
that parses, and a decode failure never aborts the pump. -/
theorem process_lines_forwarded_stripped (ws : Bool)
    (peekOk peekOk' : String → Bool) (items : List ReadItem) :
    readFromProcess true peekOk items = forwardedPayloads items ∧
    readFromProcess ws peekOk items = readFromProcess ws peekOk' items := by
  constructor
  · induction items with
    | nil => rfl
    | cons i rest ih =>
        cases i with
        | line raw sendOk =>
            cases sendOk <;> by_cases h : pyStrip raw = "" <;>
              simp [readFromProcess, forwardedPayloads, stopsProcPump, h,
                    List.takeWhile_cons, List.filterMap_cons, ih,
                    ← forwardedPayloads.eq_def]
        | badLine => simpa [readFromProcess, forwardedPayloads, stopsProcPump] using ih
        | streamGone => simpa [readFromProcess, forwardedPayloads, stopsProcPump] using ih
        | eof => rfl
        | readErr => rfl
  · induction items with
    | nil => rfl
    | cons i rest ih =>
        cases i with
        | line raw sendOk =>
            simp only [readFromProcess]
            split
            · exact ih
            · cases ws <;> cases sendOk <;> simp [ih]
        | badLine => simpa [readFromProcess] using ih
        | streamGone => simpa [readFromProcess] using ih
        | eof => rfl
        | readErr => rfl

/-- C1 counterexample: from the state where all three pumps are
running, stdout end-of-stream finishes the process pump.  The spec-side
termination rule says the relay has now ended, but the gather at
line 212 has not resolved — and still has not even after the stderr
pump also ends — and the remote→process pump's flag is untouched (it is
not cancelled).  The relay therefore waits on it indefinitely instead
of ending within one step. -/
theorem relay_pending_after_stdout_eof :
    specRelayTermination (relayStep ⟨false, false, false⟩ PumpEvent.stdoutEof) = true ∧
    gatherDone (relayStep ⟨false, false, false⟩ PumpEvent.stdoutEof) = false ∧
    (relayStep ⟨false, false, false⟩ PumpEvent.stdoutEof).wsDone = false ∧
    gatherDone (relayStep (relayStep ⟨false, false, false⟩ PumpEvent.stdoutEof)
      PumpEvent.stderrEof) = false :=
  ⟨rfl, rfl, rfl, rfl⟩

/-- C1 amended: the relay's unit of work ends only when **all three**
pumps have ended — `asyncio.gather(*tasks, return_exceptions=True)`
resolves exactly then — and a pump ending cancels nothing: stdout
end-of-stream marks only the process pump finished and leaves the
remote→process and diagnostics pumps exactly as they were, so the relay
keeps waiting for them with no bound. -/
theorem relay_ends_only_when_all_pumps_end (t : RelayTasks) :
    (gatherDone t = true ↔
      t.procDone = true ∧ t.wsDone = true ∧ t.errDone = true) ∧
    (relayStep t PumpEvent.stdoutEof).procDone = true ∧
    (relayStep t PumpEvent.stdoutEof).wsDone = t.wsDone ∧
    (relayStep t PumpEvent.stdoutEof).errDone = t.errDone := by
  rcases t with ⟨p, w, e⟩
  refine ⟨?_, rfl, rfl, rfl⟩
  cases p <;> cases w <;> cases e <;> simp [gatherDone]

/-! ### Backoff arithmetic for the session loop -/

/-- Doubling a capped value keeps the cap: feeding `min x 60` through
one capped doubling gives `min (x * 2) 60`. -/
theorem bumpDelay_min (x : Nat) : bumpDelay (min x 60) = min (x * 2) 60 := by
  unfold bumpDelay
  omega

/-- The capped doubling iterates through capped powers of two. -/
theorem bumpDelay_pow (j : Nat) :
    bumpDelay (min (2 ^ j) 60) = min (2 ^ (j + 1)) 60 := by
  rw [bumpDelay_min, ← pow_succ]

/-- Closed form of `run`'s trace over `n` consecutive connection
failures, starting from delay `min (2 ^ j) 60` with the socket never
yet set: each failure contributes one spawn, one attempt, the
retry-branch sleep, the termination from the `finally` block, and the
`finally` block's second sleep — the delay exponent advancing by two
per failure. -/
theorem runTrace_fail_aux (n : Nat) : ∀ j : Nat,
    runTrace (min (2 ^ j) 60) false (List.replicate n false) =
      (List.range n).flatMap fun k =>
        [Event.spawn, Event.connectAttempt (min (2 ^ (j + 2 * k)) 60),
         Event.sleep (min (2 ^ (j + 2 * k)) 60), Event.terminate,
         Event.sleep (min (2 ^ (j + 2 * k + 1)) 60)] := by
  induction n with
  | zero => intro j; rfl
  | succ n ih =>
      intro j
      rw [List.replicate_succ]
      have h2 : bumpDelay (bumpDelay (min (2 ^ j) 60)) = min (2 ^ (j + 2)) 60 := by
        rw [bumpDelay_pow, bumpDelay_pow]
      have harg : ∀ a : Nat, j + 2 * (a + 1) = j + 2 + 2 * a := by omega
      simp only [runTrace, if_neg Bool.false_ne_true, h2, ih (j + 2),
        List.range_succ_eq_map, List.flatMap_cons, List.flatMap_map]
      simp only [Function.comp, Nat.succ_eq_add_one, harg, bumpDelay_pow]
      simp [Nat.mul_zero, Nat.add_zero]

/-- C2 counterexample: starting from the initial delay of 1, a single
failed connection attempt (N = 1) is followed by **two** sleeps — 1 s
in the retry branch (line 200) and 2 s in the `finally` block
(line 233), which the `continue` statement also runs — not by one sleep
of `min(2^1, 60) = 2` s; and by the second connection attempt the delay
has already been doubled twice, to 4. -/
theorem backoff_first_failure_sleeps :
    sleepsOf (runTrace initialReconnectDelay false [false]) = [1, 2] ∧
    sleepsOf (runTrace initialReconnectDelay false [false]) ≠ [min (2 ^ 1) 60] ∧
    (runTrace initialReconnectDelay false [false, false]).get? 6 =
      some (Event.connectAttempt 4) := by
  refine ⟨rfl, by decide, rfl⟩

/-- C2 amended: after the (k+1)-th consecutive connection failure since
startup the program sleeps twice before the next attempt —
`min(2^(2k), 60)` seconds in the retry branch and `min(2^(2k+1), 60)`
seconds in the loop's `finally` block (which the `continue` statement
triggers) — so the delay doubles twice per failed attempt, is capped at
60, and stands at `min(2^(2k), 60)` when attempt k+1 is made; it still
resets to 1 immediately after any successful connection, after which
the `finally` block sleeps that 1 second and doubles the delay to 2
before the next iteration. -/
theorem backoff_two_sleeps_per_failure (n : Nat) (s : ConnState) (d : Nat)
    (w : Bool) (rest : List Bool) :
    runTrace initialReconnectDelay false (List.replicate n false) =
      ((List.range n).flatMap fun k =>
        [Event.spawn, Event.connectAttempt (min (2 ^ (2 * k)) 60),
         Event.sleep (min (2 ^ (2 * k)) 60), Event.terminate,
         Event.sleep (min (2 ^ (2 * k + 1)) 60)]) ∧
    sleepsOf (runTrace initialReconnectDelay false (List.replicate n false)) =
      ((List.range n).flatMap fun k =>
        [min (2 ^ (2 * k)) 60, min (2 ^ (2 * k + 1)) 60]) ∧
    (connectWebsocket s true).1.reconnect_delay = 1 ∧
    runTrace d w (true :: rest) =
      [Event.spawn, Event.connectAttempt d, Event.handshake, Event.relay,
       Event.closeWs, Event.terminate, Event.sleep 1] ++
        runTrace (bumpDelay 1) true rest := by
  have h0 : runTrace initialReconnectDelay false (List.replicate n false) =
      (List.range n).flatMap fun k =>
        [Event.spawn, Event.connectAttempt (min (2 ^ (2 * k)) 60),
         Event.sleep (min (2 ^ (2 * k)) 60), Event.terminate,
         Event.sleep (min (2 ^ (2 * k + 1)) 60)] := by
    have := runTrace_fail_aux n 0
    simpa [initialReconnectDelay] using this
  refine ⟨h0, ?_, rfl, rfl⟩
  rw [h0]
  unfold sleepsOf
  induction (List.range n) with
  | nil => rfl
  | cons k ks ih => simp [List.flatMap_cons, List.filterMap_append] at ih ⊢; exact ih

/-- C3 counterexample: two consecutive connection failures from
startup.  Between the first (failed) attempt and the second attempt the
trace contains `terminate` — the `finally` block kills the process the
failed iteration spawned — and a second `spawn`: the retry does **not**
reuse the process; it happens in a fresh outer iteration that spawns a
new one. -/
theorem respawn_between_retries :
    runTrace initialReconnectDelay false [false, false] =
      [Event.spawn, Event.connectAttempt 1, Event.sleep 1, Event.terminate,
       Event.sleep 2, Event.spawn, Event.connectAttempt 4, Event.sleep 4,
       Event.terminate, Event.sleep 8] ∧
    (runTrace initialReconnectDelay false [false, false]).countP isSpawn = 2 :=
  ⟨rfl, rfl⟩

/-- C3 amended: a failed connection attempt never retries inside the
same outer iteration — the `continue` statement runs the iteration's
`finally` block, which terminates the process, and the retry is a new
outer iteration beginning with a fresh spawn.  Every trace of the loop
has exactly one spawn, one connection attempt and one termination per
iteration, and every iteration opens with the spawn. -/
theorem process_respawned_every_attempt (d : Nat) (w : Bool)
    (outs : List Bool) (o : Bool) (rest : List Bool) :
    (runTrace d w outs).countP isSpawn = outs.length ∧
    (runTrace d w outs).countP isAttempt = outs.length ∧
    (runTrace d w outs).countP isTerminate = outs.length ∧
    (runTrace d w (o :: rest)).head? = some Event.spawn := by
  refine ⟨?_, ?_, ?_, ?_⟩
  · induction outs generalizing d w with
    | nil => rfl
    | cons b bs ih =>
        cases b <;> cases w <;>
          simp [runTrace, List.countP_append, List.countP_cons, isSpawn, ih]
  · induction outs generalizing d w with
    | nil => rfl
    | cons b bs ih =>
        cases b <;> cases w <;>
          simp [runTrace, List.countP_append, List.countP_cons, isAttempt, ih]
  · induction outs generalizing d w with
    | nil => rfl
    | cons b bs ih =>
        cases b <;> cases w <;>
          simp [runTrace, List.countP_append, List.countP_cons, isTerminate, ih]
  · cases o <;> rfl

end McpPipe
